import Mathlib

/-!
Shallow embedding of the crop / pipeline core of `invertible-model-gui`:
`ImageDataManager` (src/data_utils.py) and `CropImageDisplay`
(src/component_image_display.py).

Modelling conventions:
* Python floats are modelled as exact rationals; `int(x)` truncation toward
  zero is `pyInt`, integer floor division `//` is `pyDiv`.
* Qt's `QRect` becomes `QRectZ` (integer `x`, `y`, `w`, `h`; the default
  constructed rect is `(0,0,0,0)`, which is also null).  Pixmaps are
  modelled by their integer sizes; the size that `QPixmap.scaled` produces
  is library behaviour outside the repository and is supplied as data.
* Python `dict`s are modelled as functions to `Option`; strings passed to
  `set_aspect_ratio` are modelled as their character lists because the
  splitting and parsing must stay executable.
-/

/-- Python `int(x)` applied to a real value: truncation toward zero. -/
def pyInt (q : ℚ) : ℤ := if q < 0 then ⌈q⌉ else ⌊q⌋

/-- Python `//` on integers: floor division. -/
def pyDiv (a b : ℤ) : ℤ := Int.fdiv a b

/-- Python `d[k] = v` on a dict modelled as a function to `Option`. -/
def dictInsert {α : Type} (m : String → Option α) (k : String) (v : α) :
    String → Option α :=
  fun k' => if k' = k then some v else m k'

/-- Python `del d[k]`. -/
def dictDelete {α : Type} (m : String → Option α) (k : String) :
    String → Option α :=
  fun k' => if k' = k then none else m k'

/-- Qt `QRect` with integer coordinates; `QRect()` is `(0,0,0,0)`. -/
structure QRectZ where
  x : ℤ
  y : ℤ
  w : ℤ
  h : ℤ
  deriving DecidableEq

/-- Qt `QRect.isNull`: both width and height are zero. -/
def QRectZ.isNull (r : QRectZ) : Bool := r.w == 0 && r.h == 0

/-- Python `str.split(sep)` for a single-character separator, over the
string's characters. -/
def splitOnChar (c : Char) : List Char → List (List Char)
  | [] => [[]]
  | x :: xs =>
    if x = c then [] :: splitOnChar c xs
    else
      match splitOnChar c xs with
      | [] => [[x]]
      | p :: ps => (x :: p) :: ps

/-- Decimal digits accumulated into a natural number; `none` on the first
non-digit character. -/
def digitsToNat (acc : ℕ) : List Char → Option ℕ
  | [] => some acc
  | c :: cs =>
    if c.isDigit then digitsToNat (acc * 10 + (c.toNat - '0'.toNat)) cs
    else none

/-- Python `int(str)`: optional surrounding whitespace, an optional sign,
then at least one decimal digit; anything else raises `ValueError`
(returned here as `none`).  Underscore digit grouping is not modelled. -/
def pyParseInt (l : List Char) : Option ℤ :=
  let l := ((l.dropWhile Char.isWhitespace).reverse.dropWhile
    Char.isWhitespace).reverse
  match l with
  | '+' :: rest =>
    if rest.isEmpty then none else (digitsToNat 0 rest).map Int.ofNat
  | '-' :: rest =>
    if rest.isEmpty then none else (digitsToNat 0 rest).map (fun n => -(n : ℤ))
  | rest =>
    if rest.isEmpty then none else (digitsToNat 0 rest).map Int.ofNat

/-- Per-image record of src/data_utils.py (`ImageDataManager`).
`cv2.imread` and the pixel buffer are outside the model: the constructor's
image data is replaced by the image's path and pixel dimensions. -/
structure ImageDataManager where
  image_path : String
  org_width : ℤ
  org_height : ℤ
  state : ℕ
  roi : Option (ℤ × ℤ × ℤ × ℤ)
  resize : Option (ℤ × ℤ)
  prompt : Option String
  fix_prompt : Option String
  deriving DecidableEq

namespace ImageDataManager

def STATE_NONE : ℕ := 0b00000

def STATE_CROP : ℕ := 0b10000

def STATE_RESIZE : ℕ := 0b01000

def STATE_INFER : ℕ := 0b00100

def STATE_FIX : ℕ := 0b00010

def STATE_ORDER : List ℕ := [STATE_CROP, STATE_RESIZE, STATE_INFER, STATE_FIX]

/-- `reset`: clear every variable and the state. -/
def reset (m : ImageDataManager) : ImageDataManager :=
  { m with state := STATE_NONE, roi := none, resize := none, prompt := none,
           fix_prompt := none }

/-- `__init__` with the imread result replaced by the given dimensions. -/
def init (image_path : String) (org_width org_height : ℤ) : ImageDataManager :=
  reset ⟨image_path, org_width, org_height, 0, none, none, none, none⟩

/-- `_update_state`: if the new state is one of the ordered stages, keep
only the bits up to and including it, then OR the new state in. -/
def _update_state (m : ImageDataManager) (new_state : ℕ) : ImageDataManager :=
  if STATE_ORDER.contains new_state then
    let keep_mask := (STATE_ORDER.take (STATE_ORDER.indexOf new_state + 1)).sum
    { m with state := (m.state &&& keep_mask) ||| new_state }
  else
    { m with state := m.state ||| new_state }

def set_crop (m : ImageDataManager) (roi : ℤ × ℤ × ℤ × ℤ) : ImageDataManager :=
  ({ m with roi := some roi, resize := none, prompt := none,
            fix_prompt := none })._update_state STATE_CROP

def set_resize (m : ImageDataManager) (resize : ℤ × ℤ) : ImageDataManager :=
  ({ m with resize := some resize, prompt := none,
            fix_prompt := none })._update_state STATE_RESIZE

def set_infer (m : ImageDataManager) (prompt : String) : ImageDataManager :=
  ({ m with prompt := some prompt, fix_prompt := none })._update_state
    STATE_INFER

def set_fix (m : ImageDataManager) (fix_prompt : String) : ImageDataManager :=
  ({ m with fix_prompt := some fix_prompt })._update_state STATE_FIX

end ImageDataManager

/-- Python `st & ~0b10000` on a nonnegative int clears exactly bit 4, whose
contribution to `st` is `st &&& 0b10000`; it is modelled as subtracting that
contribution, which keeps the definition executable.  The lemma
`clearCropState_bits` below gives the bitwise reading. -/
def clearCropState (st : ℕ) : ℕ := st - (st &&& ImageDataManager.STATE_CROP)

/-- Modelled from the inline cancel code of `CropImageDisplay`
(`mousePressEvent` right-button branch and the blank branch of
`set_aspect_ratio` in src/component_image_display.py):
`self.image_manager.roi = None; self.image_manager.state &= ~STATE_CROP`.
The spec calls this operation `clear_crop()`. -/
def ImageDataManager.clear_crop (m : ImageDataManager) : ImageDataManager :=
  { m with roi := none, state := clearCropState m.state }

/-- The pipeline operations named by the claims: the four stage setters of
`ImageDataManager` and the cancel path's crop clearing. -/
inductive MOp
  | crop (roi : ℤ × ℤ × ℤ × ℤ)
  | resize (spec : ℤ × ℤ)
  | infer (prompt : String)
  | fix (prompt : String)
  | clearCrop

def applyMOp (m : ImageDataManager) : MOp → ImageDataManager
  | .crop r => m.set_crop r
  | .resize sp => m.set_resize sp
  | .infer p => m.set_infer p
  | .fix p => m.set_fix p
  | .clearCrop => m.clear_crop

/-- A state is a prefix of `[CROP, RESIZE, INFER, FIX]` in set order. -/
def isPrefixState (st : ℕ) : Prop :=
  st = 0b00000 ∨ st = 0b10000 ∨ st = 0b11000 ∨ st = 0b11100 ∨ st = 0b11110

instance (st : ℕ) : Decidable (isPrefixState st) := by
  unfold isPrefixState; infer_instance

/-- The order discipline under which the GUI drives the pipeline: a stage is
set only when every earlier stage is already set, and the crop is cleared
only when no stage after CROP is set. -/
def inOrderGuard (m : ImageDataManager) : MOp → Prop
  | .crop _ => True
  | .resize _ => m.state &&& 0b10000 = 0b10000
  | .infer _ => m.state &&& 0b11000 = 0b11000
  | .fix _ => m.state &&& 0b11100 = 0b11100
  | .clearCrop => m.state &&& 0b01110 = 0

instance (m : ImageDataManager) (op : MOp) : Decidable (inOrderGuard m op) := by
  cases op <;> unfold inOrderGuard <;> infer_instance

/-- Manager states reachable from a fresh image through operations obeying
`inOrderGuard`. -/
inductive InOrderReachable : ImageDataManager → Prop
  | init (p : String) (w h : ℤ) : InOrderReachable (ImageDataManager.init p w h)
  | step {m : ImageDataManager} (op : MOp) : InOrderReachable m →
      inOrderGuard m op → InOrderReachable (applyMOp m op)

/-- The state of `CropImageDisplay` (src/component_image_display.py):
widget size, the bound `ImageDataManager`, the original and scaled pixmaps
(by size), the selection state, and the two per-image memory dicts keyed by
image path. -/
structure CropDisplay where
  widgetW : ℤ
  widgetH : ℤ
  image_manager : Option ImageDataManager
  original_size : Option (ℤ × ℤ)
  scaled_size : Option (ℤ × ℤ)
  aspect_ratio : Option ℚ
  rect_size : ℤ
  rectangle : QRectZ
  is_selecting : Bool
  last_rect_size : String → Option ℤ
  last_rect_pos : String → Option QRectZ

namespace CropDisplay

/-- `__init__`: no image, no ratio, `rect_size = 512`, selecting. -/
def mk0 (W H : ℤ) : CropDisplay :=
  ⟨W, H, none, none, none, none, 512, ⟨0, 0, 0, 0⟩, true,
   fun _ => none, fun _ => none⟩

/-- `_set_default_rectangle`: long edge `rect_size`, aspect kept, clamped to
the scaled image and centred in the displayed image area.  Python reads
`self.aspect_ratio` unconditionally here; with no ratio set it would raise
`TypeError` before mutating anything, so that case leaves the state as is. -/
def _set_default_rectangle (s : CropDisplay) : CropDisplay :=
  match s.scaled_size, s.aspect_ratio with
  | some (iw, ih), some ar =>
    if iw = 0 ∧ ih = 0 then s
    else
      let x_offset := pyDiv (s.widgetW - iw) 2
      let y_offset := pyDiv (s.widgetH - ih) 2
      let wh : ℤ × ℤ :=
        if 1 < ar then
          let width := min s.rect_size iw
          (width, pyInt ((width : ℚ) / ar))
        else
          let height := min s.rect_size ih
          (pyInt ((height : ℚ) * ar), height)
      let width := min wh.1 iw
      let height := min wh.2 ih
      { s with rectangle :=
          ⟨x_offset + pyDiv (iw - width) 2, y_offset + pyDiv (ih - height) 2,
           width, height⟩ }
  | _, _ => s

/-- The exceptions that can escape the modelled methods. -/
inductive PyExc
  | zeroDivisionError
  deriving DecidableEq

/-- `set_aspect_ratio`: blank input clears the ratio, the rectangle and (on
a bound image) the image's roi and CROP bit; `"W:H"` sets the ratio and
recomputes the default rectangle.  The `try` block catches `ValueError`
only, so parse failures are silent no-ops while a zero denominator escapes
as `ZeroDivisionError` (returned in the second component, the state being
what the method had written before raising — nothing). -/
def set_aspect_ratio (s : CropDisplay) (ratio_str : List Char) :
    CropDisplay × Option PyExc :=
  if ratio_str.isEmpty || ratio_str.all Char.isWhitespace then
    let s1 := { s with aspect_ratio := none, rectangle := ⟨0, 0, 0, 0⟩ }
    match s1.image_manager with
    | some m =>
      let m1 : ImageDataManager :=
        { m with roi := none, state := clearCropState m.state }
      ({ s1 with image_manager := some m1 }, none)
    | none => (s1, none)
  else
    match splitOnChar ':' ratio_str with
    | [ws, hs] =>
      match pyParseInt ws, pyParseInt hs with
      | some width_ratio, some height_ratio =>
        if height_ratio = 0 then (s, some PyExc.zeroDivisionError)
        else
          let ar : ℚ := (width_ratio : ℚ) / (height_ratio : ℚ)
          let s1 := { s with aspect_ratio := some ar }
          match s1.image_manager with
          | some _ => (s1._set_default_rectangle, none)
          | none => (s1, none)
      | _, _ => (s, none)
    | _ => (s, none)

/-- `set_rect_size`. -/
def set_rect_size (s : CropDisplay) (size : ℤ) : CropDisplay :=
  let s1 := { s with rect_size := size }
  if s1.image_manager.isSome then s1._set_default_rectangle else s1

/-- `set_image`: bind the manager and its pixmaps (the scaled size is Qt's
result, supplied as data); restore the remembered rectangle when the path
is in `last_rect_size` and a ratio is set (the read of `last_rect_pos`
would be a `KeyError` in Python on a missing key — `c10_memory_keys_align`
shows the key is always present — so it is modelled with a default),
otherwise compute a default rectangle or clear it. -/
def set_image (s : CropDisplay) (image_manager : Option ImageDataManager)
    (qtScaled : ℤ × ℤ) : CropDisplay :=
  match image_manager with
  | some m =>
    let s1 := { s with image_manager := some m,
                       original_size := some (m.org_width, m.org_height),
                       scaled_size := some qtScaled }
    if (s1.last_rect_size m.image_path).isSome && s1.aspect_ratio.isSome then
      { s1 with rect_size := (s1.last_rect_size m.image_path).getD 0,
                rectangle := (s1.last_rect_pos m.image_path).getD ⟨0, 0, 0, 0⟩,
                is_selecting := false }
    else if s1.aspect_ratio.isSome then
      { s1._set_default_rectangle with is_selecting := true }
    else
      { s1 with rectangle := ⟨0, 0, 0, 0⟩, is_selecting := true }
  | none =>
    { s with image_manager := none, original_size := none, scaled_size := none,
             rectangle := ⟨0, 0, 0, 0⟩ }

/-- The coordinate transform inside `_get_source_rect`, over rational
viewport coordinates: subtract the centring offset and rescale by
original/scaled, truncating each coordinate with `int()`. -/
def sourceRectTransform (ow oh sw sh W H : ℤ) (x y w h : ℚ) : QRectZ :=
  let scale_x : ℚ := (ow : ℚ) / (sw : ℚ)
  let scale_y : ℚ := (oh : ℚ) / (sh : ℚ)
  let x_offset := pyDiv (W - sw) 2
  let y_offset := pyDiv (H - sh) 2
  ⟨pyInt ((x - (x_offset : ℚ)) * scale_x),
   pyInt ((y - (y_offset : ℚ)) * scale_y),
   pyInt (w * scale_x), pyInt (h * scale_y)⟩

/-- `_get_source_rect`: the null rect when a pixmap is missing or the
rectangle is null, otherwise the transform above on the rectangle. -/
def _get_source_rect (s : CropDisplay) : QRectZ :=
  match s.original_size, s.scaled_size with
  | some (ow, oh), some (sw, sh) =>
    if s.rectangle.isNull then ⟨0, 0, 0, 0⟩
    else
      sourceRectTransform ow oh sw sh s.widgetW s.widgetH
        (s.rectangle.x : ℚ) (s.rectangle.y : ℚ)
        (s.rectangle.w : ℚ) (s.rectangle.h : ℚ)
  | _, _ => ⟨0, 0, 0, 0⟩

inductive MouseButton
  | left
  | right
  deriving DecidableEq

/-- `mousePressEvent`: nothing without a ratio; left press while selecting
confirms (saves the crop to the manager and the rectangle to the memory
dicts); right press cancels (clears the manager's roi and CROP bit, deletes
the memory entries, recomputes the default rectangle). -/
def mousePressEvent (s : CropDisplay) (button : MouseButton) : CropDisplay :=
  match s.aspect_ratio with
  | none => s
  | some _ =>
    match button with
    | .left =>
      if s.is_selecting then
        let s1 := { s with is_selecting := false }
        match s1.image_manager with
        | some m =>
          let source_rect := s1._get_source_rect
          let m1 := m.set_crop
            (source_rect.x, source_rect.y, source_rect.w, source_rect.h)
          { s1 with image_manager := some m1,
                    last_rect_size :=
                      dictInsert s1.last_rect_size m.image_path s1.rect_size,
                    last_rect_pos :=
                      dictInsert s1.last_rect_pos m.image_path s1.rectangle }
        | none => s1
      else s
    | .right =>
      let s1 := { s with is_selecting := true }
      match s1.image_manager with
      | some m =>
        let m1 := { m with roi := none, state := clearCropState m.state }
        let sz := if (s1.last_rect_size m.image_path).isSome then
            dictDelete s1.last_rect_size m.image_path
          else s1.last_rect_size
        let ps := if (s1.last_rect_pos m.image_path).isSome then
            dictDelete s1.last_rect_pos m.image_path
          else s1.last_rect_pos
        ({ s1 with image_manager := some m1, last_rect_size := sz,
                   last_rect_pos := ps })._set_default_rectangle
      | none => s1

/-- The pure core of `_update_rectangle_position`: recentre the rectangle
on the clamped pointer position, then clamp it into the displayed image
area (size unchanged). -/
def updateRectanglePosition (W H iw ih : ℤ) (r : QRectZ) (px py : ℤ) :
    QRectZ :=
  let x_offset := pyDiv (W - iw) 2
  let y_offset := pyDiv (H - ih) 2
  let center_x := max x_offset (min px (x_offset + iw))
  let center_y := max y_offset (min py (y_offset + ih))
  let new_x := center_x - pyDiv r.w 2
  let new_y := center_y - pyDiv r.h 2
  let new_x1 := max x_offset (min new_x (x_offset + iw - r.w))
  let new_y1 := max y_offset (min new_y (y_offset + ih - r.h))
  ⟨new_x1, new_y1, r.w, r.h⟩

/-- `mouseMoveEvent`: with a ratio set, while selecting and with an image
bound, move the rectangle.  (Python's guard
`not self.scaled_pixmap or not self.scaled_pixmap.isNull()` proceeds on a
missing scaled pixmap and would then fail attribute access; that state is
unreachable with an image bound and is modelled as a no-op.) -/
def mouseMoveEvent (s : CropDisplay) (px py : ℤ) : CropDisplay :=
  match s.aspect_ratio with
  | none => s
  | some _ =>
    if s.is_selecting && s.image_manager.isSome then
      match s.scaled_size with
      | some (iw, ih) =>
        if iw = 0 ∧ ih = 0 then s
        else { s with rectangle :=
          updateRectanglePosition s.widgetW s.widgetH iw ih s.rectangle px py }
      | none => s
    else s

/-- `mouseReleaseEvent`: on a left release while selecting, confirm exactly
as the left press does.  Note the missing aspect-ratio guard — this is the
subject of claim C9. -/
def mouseReleaseEvent (s : CropDisplay) (button : MouseButton) : CropDisplay :=
  if button = MouseButton.left ∧ s.is_selecting then
    let s1 := { s with is_selecting := false }
    match s1.image_manager with
    | some m =>
      let source_rect := s1._get_source_rect
      let m1 := m.set_crop
        (source_rect.x, source_rect.y, source_rect.w, source_rect.h)
      { s1 with image_manager := some m1,
                last_rect_size :=
                  dictInsert s1.last_rect_size m.image_path s1.rect_size,
                last_rect_pos :=
                  dictInsert s1.last_rect_pos m.image_path s1.rectangle }
    | none => s1
  else s

end CropDisplay

/-- The selection geometry `wheelEvent` manipulates: the candidate
rectangle and the remembered long-edge size. -/
structure RectState where
  rect : QRectZ
  rect_size : ℤ
  deriving DecidableEq

/-- The pure core of `wheelEvent`: scale the rectangle's width by 1.1
(positive scroll) or 0.9, clamp it to `[100, min(iw, int(ih*ar))]`,
recompute the height as `int(width/ar)`, keep the centre and clamp into the
displayed image area, and record the long edge in `rect_size`.  (The
source computes a provisional height before clamping the width; that value
is overwritten unused and is omitted.) -/
def wheelStep (W H iw ih : ℤ) (ar : ℚ) (st : RectState) (angle_delta : ℤ) :
    RectState :=
  let scale_factor : ℚ := if 0 < angle_delta then 11 / 10 else 9 / 10
  let x_offset := pyDiv (W - iw) 2
  let y_offset := pyDiv (H - ih) 2
  let max_width := min iw (pyInt ((ih : ℚ) * ar))
  let min_width : ℤ := 100
  let new_width :=
    max min_width (min (pyInt ((st.rect.w : ℚ) * scale_factor)) max_width)
  let new_height := pyInt ((new_width : ℚ) / ar)
  let center_x := st.rect.x + pyDiv st.rect.w 2
  let center_y := st.rect.y + pyDiv st.rect.h 2
  let new_x := max x_offset
    (min (center_x - pyDiv new_width 2) (x_offset + iw - new_width))
  let new_y := max y_offset
    (min (center_y - pyDiv new_height 2) (y_offset + ih - new_height))
  ⟨⟨new_x, new_y, new_width, new_height⟩, max new_width new_height⟩

/-- `wheelEvent`: with a ratio set, while selecting and with an image
bound, rescale the rectangle.  (As in `mouseMoveEvent`, a missing scaled
pixmap would fail attribute access in Python; modelled as a no-op.) -/
def CropDisplay.wheelEvent (s : CropDisplay) (angle_delta : ℤ) : CropDisplay :=
  match s.aspect_ratio with
  | none => s
  | some ar =>
    if s.is_selecting && s.image_manager.isSome then
      match s.scaled_size with
      | some (iw, ih) =>
        let st := wheelStep s.widgetW s.widgetH iw ih ar
          ⟨s.rectangle, s.rect_size⟩ angle_delta
        { s with rectangle := st.rect, rect_size := st.rect_size }
      | none => s
    else s

/-- `reset` (including the base class part): drop the image and pixmaps,
clear the rectangle, return to selecting.  The memory dicts are kept. -/
def CropDisplay.reset (s : CropDisplay) : CropDisplay :=
  { s with image_manager := none, original_size := none, scaled_size := none,
           rectangle := ⟨0, 0, 0, 0⟩, is_selecting := true }

/-- `resizeEvent`: record the new widget size and rescale the pixmap (the
scaled size again supplied as Qt's result). -/
def CropDisplay.resizeEvent (s : CropDisplay) (newW newH : ℤ)
    (qtScaled : ℤ × ℤ) : CropDisplay :=
  let s1 := { s with widgetW := newW, widgetH := newH }
  if s1.original_size.isSome then { s1 with scaled_size := some qtScaled }
  else s1

/-- Every public mutator of `CropImageDisplay`, for reachability. -/
inductive DOp
  | setImage (mgr : Option ImageDataManager) (qtScaled : ℤ × ℤ)
  | setAspect (ratio_str : List Char)
  | setRectSize (size : ℤ)
  | press (button : CropDisplay.MouseButton)
  | release (button : CropDisplay.MouseButton)
  | move (px py : ℤ)
  | wheel (delta : ℤ)
  | resetOp
  | resizeEv (newW newH : ℤ) (qtScaled : ℤ × ℤ)

def applyDOp (s : CropDisplay) : DOp → CropDisplay
  | .setImage mgr sc => s.set_image mgr sc
  | .setAspect str => (s.set_aspect_ratio str).1
  | .setRectSize n => s.set_rect_size n
  | .press b => s.mousePressEvent b
  | .release b => s.mouseReleaseEvent b
  | .move px py => s.mouseMoveEvent px py
  | .wheel d => s.wheelEvent d
  | .resetOp => s.reset
  | .resizeEv w h sc => s.resizeEvent w h sc

/-- Display states reachable from a fresh `CropImageDisplay`. -/
inductive DisplayReachable : CropDisplay → Prop
  | init (W H : ℤ) : DisplayReachable (CropDisplay.mk0 W H)
  | step {s : CropDisplay} (op : DOp) : DisplayReachable s →
      DisplayReachable (applyDOp s op)

/-- The pointer interactions of claims C6 and C7. -/
inductive PtrOp
  | move (px py : ℤ)
  | scroll (delta : ℤ)

def applyPtrOp (W H iw ih : ℤ) (ar : ℚ) (st : RectState) : PtrOp → RectState
  | .move px py =>
    ⟨CropDisplay.updateRectanglePosition W H iw ih st.rect px py, st.rect_size⟩
  | .scroll d => wheelStep W H iw ih ar st d

def runPtrOps (W H iw ih : ℤ) (ar : ℚ) (st : RectState) (ops : List PtrOp) :
    RectState :=
  ops.foldl (applyPtrOp W H iw ih ar) st

/-- The rectangle lies inside the displayed (scaled, centred) image area. -/
def containedInImage (W H iw ih : ℤ) (r : QRectZ) : Prop :=
  pyDiv (W - iw) 2 ≤ r.x ∧ r.x + r.w ≤ pyDiv (W - iw) 2 + iw ∧
  pyDiv (H - ih) 2 ≤ r.y ∧ r.y + r.h ≤ pyDiv (H - ih) 2 + ih

instance (W H iw ih : ℤ) (r : QRectZ) :
    Decidable (containedInImage W H iw ih r) := by
  unfold containedInImage; infer_instance

/-- Modelled from the spec: CoordinateMapper's forward map `to_viewport`
(§4.1), `viewport_rect = image_rect * scale + offset`, applied with the x
and y scale factors and the centring offsets; the source repository
contains only the inverse direction (`_get_source_rect`). -/
def to_viewport (sx sy : ℚ) (x_offset y_offset : ℤ) (r : QRectZ) :
    ℚ × ℚ × ℚ × ℚ :=
  ((r.x : ℚ) * sx + (x_offset : ℚ), (r.y : ℚ) * sy + (y_offset : ℚ),
   (r.w : ℚ) * sx, (r.h : ℚ) * sy)

/-- A manager that has been cropped and resized, with payloads present. -/
def mgrEx : ImageDataManager :=
  ⟨"a.png", 800, 600, 0b11000, some (0, 0, 100, 100), some (64, 64),
   some "p", some "f"⟩

/-- A display bound to `mgrEx` with ratio 1, mid-selection. -/
def dispEx : CropDisplay :=
  ⟨400, 400, some mgrEx, some (800, 600), some (400, 300), some 1, 512,
   ⟨10, 10, 50, 50⟩, true, fun _ => none, fun _ => none⟩

/-- A display with ratio 4:3 and a confirmed rectangle, as in the
malformed-ratio scenario. -/
def dispConfirmed43 : CropDisplay :=
  ⟨400, 400, some mgrEx, some (800, 600), some (400, 300), some ((4 : ℚ) / 3),
   512, ⟨10, 10, 40, 30⟩, false, fun _ => none, fun _ => none⟩

/-- A display bound to a fresh manager with no aspect ratio set (so the
rectangle is the null rect), still selecting. -/
def dispNoRatio : CropDisplay :=
  ⟨400, 400, some (ImageDataManager.init "a.png" 800 600), some (800, 600),
   some (400, 300), none, 512, ⟨0, 0, 0, 0⟩, true, fun _ => none, fun _ => none⟩

/-- A display with a ratio set but no image bound. -/
def dispUnbound : CropDisplay :=
  ⟨400, 400, none, none, none, some 1, 512, ⟨0, 0, 0, 0⟩, true,
   fun _ => none, fun _ => none⟩

theorem pyInt_of_nonneg {q : ℚ} (h : 0 ≤ q) : pyInt q = ⌊q⌋ := by
  unfold pyInt
  rw [if_neg (not_lt.mpr h)]

theorem pyInt_intCast (n : ℤ) : pyInt (n : ℚ) = n := by
  unfold pyInt
  split
  · rw [Int.ceil_intCast]
  · rw [Int.floor_intCast]

theorem and_pow2 (st i : ℕ) : st &&& 2 ^ i = st / 2 ^ i % 2 * 2 ^ i := by
  rw [Nat.and_two_pow, Nat.testBit_to_div_mod]
  rcases Nat.mod_two_eq_zero_or_one (st / 2 ^ i) with h | h <;> simp [h]

theorem and_mask16 (st : ℕ) : st &&& 16 = st / 16 % 2 * 16 := by
  have h := and_pow2 st 4
  norm_num at h
  exact h

theorem and_mask8 (st : ℕ) : st &&& 8 = st / 8 % 2 * 8 := by
  have h := and_pow2 st 3
  norm_num at h
  exact h

theorem and_mask4 (st : ℕ) : st &&& 4 = st / 4 % 2 * 4 := by
  have h := and_pow2 st 2
  norm_num at h
  exact h

theorem and_mask2 (st : ℕ) : st &&& 2 = st / 2 % 2 * 2 := by
  have h := and_pow2 st 1
  norm_num at h
  exact h

/-- Clearing the CROP contribution clears bit 4 and nothing else: the
RESIZE, INFER and FIX bits and all bits above bit 4 are unchanged. -/
theorem clearCropState_bits (st : ℕ) :
    clearCropState st &&& 16 = 0 ∧
    clearCropState st &&& 8 = st &&& 8 ∧
    clearCropState st &&& 4 = st &&& 4 ∧
    clearCropState st &&& 2 = st &&& 2 ∧
    clearCropState st / 32 = st / 32 := by
  unfold clearCropState ImageDataManager.STATE_CROP
  rw [and_mask16 st, and_mask16, and_mask8, and_mask8 st, and_mask4,
    and_mask4 st, and_mask2, and_mask2 st]
  norm_num
  omega

theorem land16_lor16 (st : ℕ) : (st &&& 16) ||| 16 = 16 := by
  apply Nat.eq_of_testBit_eq
  intro i
  rw [Nat.testBit_lor, Nat.testBit_land]
  cases h : Nat.testBit 16 i <;> simp [h]

theorem update_state_crop (m : ImageDataManager) :
    (m._update_state ImageDataManager.STATE_CROP).state =
      (m.state &&& 16) ||| 16 := rfl

theorem set_crop_state (m : ImageDataManager) (r : ℤ × ℤ × ℤ × ℤ) :
    (m.set_crop r).state = 16 := by
  show (m.state &&& 16) ||| 16 = 16
  exact land16_lor16 m.state

theorem set_resize_state (m : ImageDataManager) (sp : ℤ × ℤ) :
    (m.set_resize sp).state = (m.state &&& 24) ||| 8 := rfl

theorem set_infer_state (m : ImageDataManager) (p : String) :
    (m.set_infer p).state = (m.state &&& 28) ||| 4 := rfl

theorem set_fix_state (m : ImageDataManager) (p : String) :
    (m.set_fix p).state = (m.state &&& 30) ||| 2 := rfl

theorem clear_crop_state (m : ImageDataManager) :
    m.clear_crop.state = m.state - (m.state &&& 16) := rfl

theorem in_order_step {m : ImageDataManager} (op : MOp)
    (hp : isPrefixState m.state) (hg : inOrderGuard m op) :
    isPrefixState (applyMOp m op).state := by
  cases op with
  | crop r =>
    show isPrefixState (m.set_crop r).state
    rw [set_crop_state]
    decide
  | resize sp =>
    show isPrefixState (m.set_resize sp).state
    rw [set_resize_state]
    simp only [inOrderGuard] at hg
    rcases hp with h | h | h | h | h <;> rw [h] at hg ⊢ <;> revert hg <;> decide
  | infer p =>
    show isPrefixState (m.set_infer p).state
    rw [set_infer_state]
    simp only [inOrderGuard] at hg
    rcases hp with h | h | h | h | h <;> rw [h] at hg ⊢ <;> revert hg <;> decide
  | fix p =>
    show isPrefixState (m.set_fix p).state
    rw [set_fix_state]
    simp only [inOrderGuard] at hg
    rcases hp with h | h | h | h | h <;> rw [h] at hg ⊢ <;> revert hg <;> decide
  | clearCrop =>
    show isPrefixState m.clear_crop.state
    rw [clear_crop_state]
    simp only [inOrderGuard] at hg
    rcases hp with h | h | h | h | h <;> rw [h] at hg ⊢ <;> revert hg <;> decide

/-- C1 (amended): along every sequence of pipeline operations in which a
stage is set only when all earlier stages are already set and the crop is
cleared only when no later stage is set, `stage_state` is a prefix of
[CROP, RESIZE, INFER, FIX] after each operation.  Without that order
discipline the claim fails (see `c1_counterexample`). -/
theorem c1_stage_prefix_under_order {m : ImageDataManager}
    (h : InOrderReachable m) : isPrefixState m.state := by
  induction h with
  | init p w h => exact Or.inl rfl
  | step op hr hg ih => exact in_order_step op ih hg

theorem c1_witness :
    isPrefixState ((applyMOp (applyMOp (ImageDataManager.init "a.png" 8 6)
      (MOp.crop (0, 0, 4, 4))) (MOp.resize (2, 2))).state) :=
  c1_stage_prefix_under_order
    (InOrderReachable.step (MOp.resize (2, 2))
      (InOrderReachable.step (MOp.crop (0, 0, 4, 4))
        (InOrderReachable.init "a.png" 8 6) trivial)
      (by decide))

/-- C1 counterexample: the single-operation sequence `set_resize` applied
to the initial state sets the RESIZE bit (bit 3) while the earlier CROP
bit (bit 4) is unset, so `stage_state` is not a prefix of the stage
order. -/
theorem c1_counterexample :
    ((applyMOp (ImageDataManager.init "a.png" 8 6)
      (MOp.resize (2, 2))).state).testBit 3 = true ∧
    ((applyMOp (ImageDataManager.init "a.png" 8 6)
      (MOp.resize (2, 2))).state).testBit 4 = false ∧
    ¬ isPrefixState ((applyMOp (ImageDataManager.init "a.png" 8 6)
      (MOp.resize (2, 2))).state) := by
  decide

/-- C5: from any manager state whatever, `set_resize` followed by
`set_crop` leaves exactly the CROP bit set, the new roi, and no resize,
infer or fix payloads. -/
theorem c5_cascading_invalidation (m : ImageDataManager) (sp : ℤ × ℤ)
    (r : ℤ × ℤ × ℤ × ℤ) :
    ((m.set_resize sp).set_crop r).state = 0b10000 ∧
    ((m.set_resize sp).set_crop r).roi = some r ∧
    ((m.set_resize sp).set_crop r).resize = none ∧
    ((m.set_resize sp).set_crop r).prompt = none ∧
    ((m.set_resize sp).set_crop r).fix_prompt = none :=
  ⟨set_crop_state _ _, rfl, rfl, rfl, rfl⟩

theorem sdr_keeps (s : CropDisplay) :
    s._set_default_rectangle.image_manager = s.image_manager ∧
    s._set_default_rectangle.aspect_ratio = s.aspect_ratio ∧
    s._set_default_rectangle.is_selecting = s.is_selecting ∧
    s._set_default_rectangle.rect_size = s.rect_size ∧
    s._set_default_rectangle.last_rect_size = s.last_rect_size ∧
    s._set_default_rectangle.last_rect_pos = s.last_rect_pos := by
  obtain ⟨W, H, im, os, ss, arf, rs, rect, sel, ls, lp⟩ := s
  rcases ss with _ | ⟨iw, ih⟩
  · simp [CropDisplay._set_default_rectangle]
  · rcases arf with _ | a
    · simp [CropDisplay._set_default_rectangle]
    · simp only [CropDisplay._set_default_rectangle]
      split_ifs <;> simp

/-- C2 (amended): both crop-clearing paths — right-click cancel and a blank
ratio string with an image bound — set the image's roi to `None` and clear
the CROP bit, but (contrary to the claim) they leave the RESIZE, INFER and
FIX bits and the `resize`, `prompt` and `fix_prompt` payloads unchanged;
there is no cascading clear (see `c2_counterexample`). -/
theorem c2_clear_crop_clears_only_crop (s : CropDisplay) (m : ImageDataManager)
    (hm : s.image_manager = some m) (har : s.aspect_ratio.isSome) :
    ∃ m' : ImageDataManager,
      (s.mousePressEvent CropDisplay.MouseButton.right).image_manager =
        some m' ∧
      (s.set_aspect_ratio []).1.image_manager = some m' ∧
      m'.roi = none ∧ m'.resize = m.resize ∧ m'.prompt = m.prompt ∧
      m'.fix_prompt = m.fix_prompt ∧
      m'.state &&& 16 = 0 ∧ m'.state &&& 8 = m.state &&& 8 ∧
      m'.state &&& 4 = m.state &&& 4 ∧ m'.state &&& 2 = m.state &&& 2 ∧
      m'.state / 32 = m.state / 32 := by
  obtain ⟨a, ha⟩ := Option.isSome_iff_exists.mp har
  refine ⟨{ m with roi := none, state := clearCropState m.state },
    ?_, ?_, rfl, rfl, rfl, rfl, (clearCropState_bits m.state).1,
    (clearCropState_bits m.state).2.1, (clearCropState_bits m.state).2.2.1,
    (clearCropState_bits m.state).2.2.2.1,
    (clearCropState_bits m.state).2.2.2.2⟩
  · obtain ⟨W, H, im, os, ss, arf, rs, rect, sel, ls, lp⟩ := s
    simp only at hm ha
    subst hm ha
    simp only [CropDisplay.mousePressEvent]
    rw [(sdr_keeps _).1]
  · obtain ⟨W, H, im, os, ss, arf, rs, rect, sel, ls, lp⟩ := s
    simp only at hm ha
    subst hm ha
    simp [CropDisplay.set_aspect_ratio]

theorem c2_witness : ∃ m' : ImageDataManager,
    (dispEx.mousePressEvent CropDisplay.MouseButton.right).image_manager =
      some m' ∧
    (dispEx.set_aspect_ratio []).1.image_manager = some m' ∧
    m'.roi = none ∧ m'.resize = mgrEx.resize ∧ m'.prompt = mgrEx.prompt ∧
    m'.fix_prompt = mgrEx.fix_prompt ∧
    m'.state &&& 16 = 0 ∧ m'.state &&& 8 = mgrEx.state &&& 8 ∧
    m'.state &&& 4 = mgrEx.state &&& 4 ∧ m'.state &&& 2 = mgrEx.state &&& 2 ∧
    m'.state / 32 = mgrEx.state / 32 :=
  c2_clear_crop_clears_only_crop dispEx mgrEx rfl rfl

/-- C2 counterexample: on `dispEx` (prior `stage_state = 0b11000`, a resize
payload present) the cancel path leaves `stage_state = 0b01000` — the
RESIZE bit still set — and the resize payload in place, so there is no
cascading clear of the later stages. -/
theorem c2_counterexample :
    ((dispEx.mousePressEvent CropDisplay.MouseButton.right).image_manager.map
      (fun mm => mm.state)) = some 0b01000 ∧
    ((dispEx.mousePressEvent CropDisplay.MouseButton.right).image_manager.map
      (fun mm => mm.resize)) = some (some (64, 64)) := by
  decide

/-- C4: with ratio "4:3" active and a confirmed rectangle, `"4:0"` escapes
the handler as a `ZeroDivisionError` (the `except` clause catches only
`ValueError`), with the state otherwise unchanged, while a non-integer
string such as `"abc"` is the silent no-op the claim describes. -/
theorem c4_zero_denominator_raises :
    dispConfirmed43.set_aspect_ratio "4:0".data =
      (dispConfirmed43, some CropDisplay.PyExc.zeroDivisionError) ∧
    dispConfirmed43.set_aspect_ratio "abc".data = (dispConfirmed43, none) :=
  ⟨rfl, rfl⟩

/-- C9: a left *press* with no aspect ratio set is a no-op, and a pointer
move with no image bound is a no-op — but a left *release* while selecting
has no aspect-ratio guard: on `dispNoRatio` (no ratio, image bound, null
rectangle) it flips the phase to confirmed, writes `roi = (0,0,0,0)` and
the CROP bit into the manager, and inserts a memory entry, contradicting
the claim's "complete no-op". -/
theorem c9_release_confirms_without_ratio :
    dispNoRatio.mousePressEvent CropDisplay.MouseButton.left = dispNoRatio ∧
    dispUnbound.mouseMoveEvent 10 10 = dispUnbound ∧
    (dispNoRatio.mouseReleaseEvent CropDisplay.MouseButton.left).is_selecting
      = false ∧
    ((dispNoRatio.mouseReleaseEvent
        CropDisplay.MouseButton.left).image_manager.map
      (fun mm => mm.roi)) = some (some (0, 0, 0, 0)) ∧
    ((dispNoRatio.mouseReleaseEvent
        CropDisplay.MouseButton.left).image_manager.map
      (fun mm => mm.state)) = some 0b10000 ∧
    ((dispNoRatio.mouseReleaseEvent CropDisplay.MouseButton.left).last_rect_size
      "a.png").isSome = true :=
  ⟨rfl, rfl, by decide, by decide, by decide, by decide⟩

/-- C3: for a rectangle fully inside the image bounds and any scale factor
`scaled/original` in (0, 2] on each axis, mapping to viewport space through
the spec's `to_viewport` (`r * scale + offset`, with the code's centring
offsets) and back through `_get_source_rect`'s transform reproduces the
rectangle within ±1 pixel in every coordinate (in fact exactly). -/
theorem c3_roundtrip (ow oh sw sh W H : ℤ) (r : QRectZ)
    (how : 0 < ow) (hoh : 0 < oh) (hsw : 0 < sw) (hsh : 0 < sh)
    (_hs2x : sw ≤ 2 * ow) (_hs2y : sh ≤ 2 * oh)
    (_hx : 0 ≤ r.x) (_hxw : r.x + r.w ≤ ow) (_hy : 0 ≤ r.y)
    (_hyh : r.y + r.h ≤ oh) :
    (let v := to_viewport ((sw : ℚ) / (ow : ℚ)) ((sh : ℚ) / (oh : ℚ))
      (pyDiv (W - sw) 2) (pyDiv (H - sh) 2) r
    let r' := CropDisplay.sourceRectTransform ow oh sw sh W H
      v.1 v.2.1 v.2.2.1 v.2.2.2
    |r'.x - r.x| ≤ 1 ∧ |r'.y - r.y| ≤ 1 ∧ |r'.w - r.w| ≤ 1 ∧
      |r'.h - r.h| ≤ 1) := by
  have how0 : (ow : ℚ) ≠ 0 := Int.cast_ne_zero.mpr how.ne'
  have hoh0 : (oh : ℚ) ≠ 0 := Int.cast_ne_zero.mpr hoh.ne'
  have hsw0 : (sw : ℚ) ≠ 0 := Int.cast_ne_zero.mpr hsw.ne'
  have hsh0 : (sh : ℚ) ≠ 0 := Int.cast_ne_zero.mpr hsh.ne'
  simp only [to_viewport, CropDisplay.sourceRectTransform]
  have ex : ((r.x : ℚ) * ((sw : ℚ) / (ow : ℚ)) + ((pyDiv (W - sw) 2 : ℤ) : ℚ) -
      ((pyDiv (W - sw) 2 : ℤ) : ℚ)) * ((ow : ℚ) / (sw : ℚ)) = (r.x : ℚ) := by
    field_simp
    ring
  have ey : ((r.y : ℚ) * ((sh : ℚ) / (oh : ℚ)) + ((pyDiv (H - sh) 2 : ℤ) : ℚ) -
      ((pyDiv (H - sh) 2 : ℤ) : ℚ)) * ((oh : ℚ) / (sh : ℚ)) = (r.y : ℚ) := by
    field_simp
    ring
  have ew : ((r.w : ℚ) * ((sw : ℚ) / (ow : ℚ))) * ((ow : ℚ) / (sw : ℚ)) =
      (r.w : ℚ) := by
    field_simp
  have eh : ((r.h : ℚ) * ((sh : ℚ) / (oh : ℚ))) * ((oh : ℚ) / (sh : ℚ)) =
      (r.h : ℚ) := by
    field_simp
  rw [ex, ey, ew, eh, pyInt_intCast, pyInt_intCast, pyInt_intCast,
    pyInt_intCast]
  simp

theorem c3_witness :
    (let v := to_viewport (((50 : ℤ) : ℚ) / ((100 : ℤ) : ℚ))
      (((40 : ℤ) : ℚ) / ((80 : ℤ) : ℚ))
      (pyDiv ((200 : ℤ) - 50) 2) (pyDiv ((200 : ℤ) - 40) 2)
      (⟨10, 20, 30, 40⟩ : QRectZ)
    let r' := CropDisplay.sourceRectTransform 100 80 50 40 200 200
      v.1 v.2.1 v.2.2.1 v.2.2.2
    |r'.x - (10 : ℤ)| ≤ 1 ∧ |r'.y - (20 : ℤ)| ≤ 1 ∧ |r'.w - (30 : ℤ)| ≤ 1 ∧
      |r'.h - (40 : ℤ)| ≤ 1) :=
  c3_roundtrip 100 80 50 40 200 200 ⟨10, 20, 30, 40⟩ (by decide) (by decide)
    (by decide) (by decide) (by decide) (by decide) (by decide) (by decide)
    (by decide) (by decide)

theorem move_preserves_contained (W H iw ih px py : ℤ) (r : QRectZ)
    (hc : containedInImage W H iw ih r) :
    containedInImage W H iw ih
      (CropDisplay.updateRectanglePosition W H iw ih r px py) := by
  unfold containedInImage at hc ⊢
  unfold CropDisplay.updateRectanglePosition
  simp only
  generalize pyDiv (W - iw) 2 = xo at hc ⊢
  generalize pyDiv (H - ih) 2 = yo at hc ⊢
  generalize pyDiv r.w 2 = a
  generalize pyDiv r.h 2 = b
  omega

theorem wheel_preserves_contained (W H iw ih : ℤ) (ar : ℚ) (st : RectState)
    (d : ℤ) (har : 0 < ar) (hiw : 100 ≤ iw)
    (harw : (100 : ℚ) ≤ (ih : ℚ) * ar) :
    containedInImage W H iw ih (wheelStep W H iw ih ar st d).rect := by
  have hihar : (0 : ℚ) ≤ (ih : ℚ) * ar := le_trans (by norm_num) harw
  have hp100 : (100 : ℤ) ≤ pyInt ((ih : ℚ) * ar) := by
    rw [pyInt_of_nonneg hihar]
    exact Int.le_floor.mpr (by exact_mod_cast harw)
  have hple : ((pyInt ((ih : ℚ) * ar) : ℤ) : ℚ) ≤ (ih : ℚ) * ar := by
    rw [pyInt_of_nonneg hihar]
    exact Int.floor_le _
  unfold wheelStep
  simp only
  generalize hpt : pyInt ((st.rect.w : ℚ) *
    (if 0 < d then (11 : ℚ) / 10 else 9 / 10)) = t
  generalize hpp : pyInt ((ih : ℚ) * ar) = p at hp100 hple
  set nw : ℤ := max 100 (min t (min iw p)) with hnwdef
  have hnw100 : (100 : ℤ) ≤ nw := le_max_left _ _
  have hnwiw : nw ≤ iw := by omega
  have hnwp : nw ≤ p := by omega
  have hq0 : (0 : ℚ) ≤ (nw : ℚ) / ar := by positivity
  set nh : ℤ := pyInt ((nw : ℚ) / ar) with hnhdef
  have hnh0 : 0 ≤ nh := by
    rw [hnhdef, pyInt_of_nonneg hq0]
    exact Int.le_floor.mpr (by exact_mod_cast hq0)
  have hnhih : nh ≤ ih := by
    rw [hnhdef, pyInt_of_nonneg hq0]
    have h1 : (nw : ℚ) / ar ≤ ((ih : ℤ) : ℚ) := by
      rw [div_le_iff₀ har]
      calc (nw : ℚ) ≤ (p : ℚ) := by exact_mod_cast hnwp
        _ ≤ (ih : ℚ) * ar := hple
    calc ⌊(nw : ℚ) / ar⌋ ≤ ⌊((ih : ℤ) : ℚ)⌋ := Int.floor_mono h1
      _ = ih := Int.floor_intCast ih
  unfold containedInImage
  simp only
  generalize pyDiv (W - iw) 2 = xo
  generalize pyDiv (H - ih) 2 = yo
  generalize pyDiv st.rect.w 2 = a
  generalize pyDiv st.rect.h 2 = b
  generalize pyDiv nw 2 = a2
  generalize pyDiv nh 2 = b2
  omega

/-- C6 (amended): provided the displayed image is large enough for the
100-pixel minimum width — `100 ≤ iw` and `100 ≤ ih * ar` — the candidate
rectangle stays inside the displayed image area after every sequence of
pointer moves and scrolls starting from a contained rectangle.  Without
that proviso the 100-pixel clamp pushes the rectangle outside (see
`c6_counterexample`). -/
theorem c6_bounds_invariant_amended (W H iw ih : ℤ) (ar : ℚ) (st : RectState)
    (ops : List PtrOp) (har : 0 < ar) (hiw : 100 ≤ iw)
    (harw : (100 : ℚ) ≤ (ih : ℚ) * ar)
    (hc : containedInImage W H iw ih st.rect) :
    containedInImage W H iw ih (runPtrOps W H iw ih ar st ops).rect := by
  induction ops generalizing st with
  | nil => exact hc
  | cons op rest ih2 =>
    show containedInImage W H iw ih
      (List.foldl (applyPtrOp W H iw ih ar) st (op :: rest)).rect
    rw [List.foldl_cons]
    cases op with
    | move px py =>
      exact ih2 _ (move_preserves_contained W H iw ih px py st.rect hc)
    | scroll d =>
      exact ih2 _ (wheel_preserves_contained W H iw ih ar st d har hiw harw)

/-- C6 counterexample: a 50×50 displayed image (viewport 200×200, ratio
1:1) with the default-size contained rectangle; one scroll up clamps the
width to the 100-pixel minimum, which exceeds the displayed image, so the
resulting rectangle is not contained in the image area. -/
theorem c6_counterexample :
    ¬ containedInImage 200 200 50 50
      (runPtrOps 200 200 50 50 1 ⟨⟨75, 75, 50, 50⟩, 512⟩
        [PtrOp.scroll 120]).rect := by
  have h1 : pyInt (((50 : ℤ) : ℚ) * (11 / 10)) = 55 := by norm_num [pyInt]
  have h2 : pyInt (((50 : ℤ) : ℚ) * 1) = 50 := by norm_num [pyInt]
  have h3 : pyInt (((100 : ℤ) : ℚ) / 1) = 100 := by norm_num [pyInt]
  have hd1 : pyDiv 150 2 = 75 := by decide
  have hd2 : pyDiv 50 2 = 25 := by decide
  have hd3 : pyDiv 100 2 = 50 := by decide
  simp only [runPtrOps, List.foldl_cons, List.foldl_nil, applyPtrOp, wheelStep]
  norm_num [h1, h2, h3, hd1, hd2, hd3, containedInImage]

theorem c6_witness :
    containedInImage 400 400 400 400
      (runPtrOps 400 400 400 400 1 ⟨⟨150, 150, 100, 100⟩, 512⟩
        [PtrOp.move 10 10, PtrOp.scroll 120]).rect :=
  c6_bounds_invariant_amended 400 400 400 400 1 ⟨⟨150, 150, 100, 100⟩, 512⟩
    [PtrOp.move 10 10, PtrOp.scroll 120] (by decide) (by decide)
    (by norm_num) (by decide)

theorem wheel_aspect_step (W H iw ih : ℤ) (ar : ℚ) (st : RectState) (d : ℤ)
    (har : 0 < ar) :
    ((wheelStep W H iw ih ar st d).rect.h : ℚ) ≤
      ((wheelStep W H iw ih ar st d).rect.w : ℚ) / ar ∧
    ((wheelStep W H iw ih ar st d).rect.w : ℚ) / ar <
      ((wheelStep W H iw ih ar st d).rect.h : ℚ) + 1 ∧
    (0 < (wheelStep W H iw ih ar st d).rect.h →
      ar ≤ ((wheelStep W H iw ih ar st d).rect.w : ℚ) /
        ((wheelStep W H iw ih ar st d).rect.h : ℚ)) ∧
    100 ≤ (wheelStep W H iw ih ar st d).rect.w ∧
    (wheelStep W H iw ih ar st d).rect.w ≤
      max 100 (min iw (pyInt ((ih : ℚ) * ar))) ∧
    (wheelStep W H iw ih ar st d).rect_size =
      max (wheelStep W H iw ih ar st d).rect.w
        (wheelStep W H iw ih ar st d).rect.h := by
  unfold wheelStep
  simp only
  generalize pyInt ((st.rect.w : ℚ) *
    (if 0 < d then (11 : ℚ) / 10 else 9 / 10)) = t
  generalize pyInt ((ih : ℚ) * ar) = p
  set nw : ℤ := max 100 (min t (min iw p)) with hnw
  have h100 : (100 : ℤ) ≤ nw := le_max_left _ _
  have hnw0 : (0 : ℚ) ≤ (nw : ℚ) := by
    have : (0 : ℤ) ≤ nw := by omega
    exact_mod_cast this
  have hq0 : (0 : ℚ) ≤ (nw : ℚ) / ar := div_nonneg hnw0 har.le
  rw [pyInt_of_nonneg hq0]
  refine ⟨Int.floor_le _, Int.lt_floor_add_one _, ?_, h100, by omega, by trivial⟩
  intro hh
  have h1 : (⌊(nw : ℚ) / ar⌋ : ℚ) ≤ (nw : ℚ) / ar := Int.floor_le _
  have h2 : (⌊(nw : ℚ) / ar⌋ : ℚ) * ar ≤ (nw : ℚ) := by
    rw [← le_div_iff₀ har]
    exact h1
  have hhq : (0 : ℚ) < (⌊(nw : ℚ) / ar⌋ : ℚ) := by exact_mod_cast hh
  rw [le_div_iff₀ hhq]
  calc ar * (⌊(nw : ℚ) / ar⌋ : ℚ) = (⌊(nw : ℚ) / ar⌋ : ℚ) * ar := mul_comm _ _
    _ ≤ (nw : ℚ) := h2

/-- C7 (amended): after every nonempty sequence of scrolls the height is
the `int()` truncation of `width / ar` — so `height ≤ width/ar <
height + 1`, and `ar ≤ width/height` whenever the height is positive; the
claimed bound `|width/height − ar| < 1e-3` does not hold in general (see
`c7_counterexample`).  Each scroll scales by 1.1 (positive delta) or 0.9,
clamps the width to at least 100 and at most
`max 100 (min iw (int(ih·ar)))`, and sets `rect_size` to the long edge. -/
theorem c7_scroll_keeps_floor_aspect (W H iw ih : ℤ) (ar : ℚ) (st : RectState)
    (ds : List ℤ) (d : ℤ) (fin : RectState)
    (hfin : fin = runPtrOps W H iw ih ar st
      (ds.map PtrOp.scroll ++ [PtrOp.scroll d]))
    (har : 0 < ar) :
    (fin.rect.h : ℚ) ≤ (fin.rect.w : ℚ) / ar ∧
    (fin.rect.w : ℚ) / ar < (fin.rect.h : ℚ) + 1 ∧
    (0 < fin.rect.h → ar ≤ (fin.rect.w : ℚ) / (fin.rect.h : ℚ)) ∧
    100 ≤ fin.rect.w ∧
    fin.rect.w ≤ max 100 (min iw (pyInt ((ih : ℚ) * ar))) ∧
    fin.rect_size = max fin.rect.w fin.rect.h := by
  have he : runPtrOps W H iw ih ar st (ds.map PtrOp.scroll ++ [PtrOp.scroll d])
      = wheelStep W H iw ih ar
          (runPtrOps W H iw ih ar st (ds.map PtrOp.scroll)) d := by
    unfold runPtrOps
    rw [List.foldl_append]
    rfl
  rw [hfin, he]
  exact wheel_aspect_step W H iw ih ar
    (runPtrOps W H iw ih ar st (ds.map PtrOp.scroll)) d har

/-- C7 counterexample: from the default rectangle for ratio 3 (a 512×170
rect on a 1000×1000 displayed image), one scroll up gives width 563 and
height `int(563/3) = 187`, and `|563/187 − 3| ≈ 0.0107 ≥ 1e-3`, refuting
the claimed tolerance. -/
theorem c7_counterexample :
    (runPtrOps 1000 1000 1000 1000 3 ⟨⟨244, 415, 512, 170⟩, 512⟩
      [PtrOp.scroll 120]).rect.w = 563 ∧
    (runPtrOps 1000 1000 1000 1000 3 ⟨⟨244, 415, 512, 170⟩, 512⟩
      [PtrOp.scroll 120]).rect.h = 187 ∧
    ¬ (|((runPtrOps 1000 1000 1000 1000 3 ⟨⟨244, 415, 512, 170⟩, 512⟩
        [PtrOp.scroll 120]).rect.w : ℚ) /
       ((runPtrOps 1000 1000 1000 1000 3 ⟨⟨244, 415, 512, 170⟩, 512⟩
        [PtrOp.scroll 120]).rect.h : ℚ) - 3| < 1 / 1000) := by
  have h1 : pyInt ((2816 : ℚ) / 5) = 563 := by norm_num [pyInt]
  have h2 : pyInt ((3000 : ℚ)) = 3000 := by norm_num [pyInt]
  have h3 : pyInt ((563 : ℚ) / 3) = 187 := by norm_num [pyInt]
  have hw : (runPtrOps 1000 1000 1000 1000 3 ⟨⟨244, 415, 512, 170⟩, 512⟩
      [PtrOp.scroll 120]).rect.w = 563 := by
    simp only [runPtrOps, List.foldl_cons, List.foldl_nil, applyPtrOp,
      wheelStep]
    norm_num [h1, h2]
  have hh : (runPtrOps 1000 1000 1000 1000 3 ⟨⟨244, 415, 512, 170⟩, 512⟩
      [PtrOp.scroll 120]).rect.h = 187 := by
    simp only [runPtrOps, List.foldl_cons, List.foldl_nil, applyPtrOp,
      wheelStep]
    norm_num [h1, h2, h3, min_def, max_def]
  refine ⟨hw, hh, ?_⟩
  rw [hw, hh]
  have habs : |((563 : ℤ) : ℚ) / ((187 : ℤ) : ℚ) - 3| = 2 / 187 := by
    rw [show ((563 : ℤ) : ℚ) / ((187 : ℤ) : ℚ) - 3 = 2 / 187 by norm_num]
    rw [abs_of_nonneg (by norm_num : (0 : ℚ) ≤ 2 / 187)]
  rw [habs]
  norm_num

theorem c7_witness :
    ((runPtrOps 1000 1000 1000 1000 3 ⟨⟨244, 415, 512, 170⟩, 512⟩
      (([] : List ℤ).map PtrOp.scroll ++ [PtrOp.scroll 120])).rect.h : ℚ) ≤
      ((runPtrOps 1000 1000 1000 1000 3 ⟨⟨244, 415, 512, 170⟩, 512⟩
        (([] : List ℤ).map PtrOp.scroll ++ [PtrOp.scroll 120])).rect.w : ℚ) / 3
      ∧
    ((runPtrOps 1000 1000 1000 1000 3 ⟨⟨244, 415, 512, 170⟩, 512⟩
      (([] : List ℤ).map PtrOp.scroll ++ [PtrOp.scroll 120])).rect.w : ℚ) / 3 <
      ((runPtrOps 1000 1000 1000 1000 3 ⟨⟨244, 415, 512, 170⟩, 512⟩
        (([] : List ℤ).map PtrOp.scroll ++ [PtrOp.scroll 120])).rect.h : ℚ) + 1
      ∧
    (0 < (runPtrOps 1000 1000 1000 1000 3 ⟨⟨244, 415, 512, 170⟩, 512⟩
      (([] : List ℤ).map PtrOp.scroll ++ [PtrOp.scroll 120])).rect.h →
      (3 : ℚ) ≤ ((runPtrOps 1000 1000 1000 1000 3 ⟨⟨244, 415, 512, 170⟩, 512⟩
        (([] : List ℤ).map PtrOp.scroll ++ [PtrOp.scroll 120])).rect.w : ℚ) /
        ((runPtrOps 1000 1000 1000 1000 3 ⟨⟨244, 415, 512, 170⟩, 512⟩
          (([] : List ℤ).map PtrOp.scroll ++ [PtrOp.scroll 120])).rect.h : ℚ))
      ∧
    100 ≤ (runPtrOps 1000 1000 1000 1000 3 ⟨⟨244, 415, 512, 170⟩, 512⟩
      (([] : List ℤ).map PtrOp.scroll ++ [PtrOp.scroll 120])).rect.w ∧
    (runPtrOps 1000 1000 1000 1000 3 ⟨⟨244, 415, 512, 170⟩, 512⟩
      (([] : List ℤ).map PtrOp.scroll ++ [PtrOp.scroll 120])).rect.w ≤
      max 100 (min 1000 (pyInt (((1000 : ℤ) : ℚ) * 3))) ∧
    (runPtrOps 1000 1000 1000 1000 3 ⟨⟨244, 415, 512, 170⟩, 512⟩
      (([] : List ℤ).map PtrOp.scroll ++ [PtrOp.scroll 120])).rect_size =
      max (runPtrOps 1000 1000 1000 1000 3 ⟨⟨244, 415, 512, 170⟩, 512⟩
        (([] : List ℤ).map PtrOp.scroll ++ [PtrOp.scroll 120])).rect.w
        (runPtrOps 1000 1000 1000 1000 3 ⟨⟨244, 415, 512, 170⟩, 512⟩
          (([] : List ℤ).map PtrOp.scroll ++ [PtrOp.scroll 120])).rect.h :=
  c7_scroll_keeps_floor_aspect 1000 1000 1000 1000 3
    ⟨⟨244, 415, 512, 170⟩, 512⟩ [] 120 _ rfl (by decide)

theorem set_image_keeps (s : CropDisplay) (mgr : Option ImageDataManager)
    (sc : ℤ × ℤ) :
    (s.set_image mgr sc).last_rect_size = s.last_rect_size ∧
    (s.set_image mgr sc).last_rect_pos = s.last_rect_pos ∧
    (s.set_image mgr sc).aspect_ratio = s.aspect_ratio := by
  obtain ⟨W, H, im, os, ss, arf, rs, rect, sel, ls, lp⟩ := s
  cases mgr with
  | none => exact ⟨rfl, rfl, rfl⟩
  | some m =>
    simp only [CropDisplay.set_image]
    split_ifs <;>
      simp [(sdr_keeps _).2.1, (sdr_keeps _).2.2.2.2.1, (sdr_keeps _).2.2.2.2.2]

theorem press_left_confirm (s : CropDisplay) (m : ImageDataManager)
    (hm : s.image_manager = some m) (har : s.aspect_ratio.isSome)
    (hsel : s.is_selecting = true) :
    (s.mousePressEvent CropDisplay.MouseButton.left).last_rect_size =
      dictInsert s.last_rect_size m.image_path s.rect_size ∧
    (s.mousePressEvent CropDisplay.MouseButton.left).last_rect_pos =
      dictInsert s.last_rect_pos m.image_path s.rectangle ∧
    (s.mousePressEvent CropDisplay.MouseButton.left).aspect_ratio =
      s.aspect_ratio := by
  obtain ⟨a, ha⟩ := Option.isSome_iff_exists.mp har
  obtain ⟨W, H, im, os, ss, arf, rs, rect, sel, ls, lp⟩ := s
  simp only at hm ha hsel
  subst hm ha hsel
  simp [CropDisplay.mousePressEvent]

theorem set_image_restore (s : CropDisplay) (m : ImageDataManager)
    (sc : ℤ × ℤ) (hmem : (s.last_rect_size m.image_path).isSome)
    (har : s.aspect_ratio.isSome) :
    (s.set_image (some m) sc).rect_size =
      (s.last_rect_size m.image_path).getD 0 ∧
    (s.set_image (some m) sc).rectangle =
      (s.last_rect_pos m.image_path).getD ⟨0, 0, 0, 0⟩ ∧
    (s.set_image (some m) sc).is_selecting = false := by
  obtain ⟨W, H, im, os, ss, arf, rs, rect, sel, ls, lp⟩ := s
  simp only at hmem har
  simp [CropDisplay.set_image, hmem, har]

/-- C8: confirm a crop on image A (left press while selecting, ratio set),
switch to any other image B, switch back to A: the restored `rect_size` and
rectangle are exactly the values recorded at confirmation, and the phase is
confirmed (`is_selecting = false`). -/
theorem c8_memory_restore (s : CropDisplay) (mA mB : ImageDataManager)
    (scB scA : ℤ × ℤ) (hm : s.image_manager = some mA)
    (har : s.aspect_ratio.isSome) (hsel : s.is_selecting = true)
    (_hAB : mB.image_path ≠ mA.image_path) :
    (((s.mousePressEvent CropDisplay.MouseButton.left).set_image
        (some mB) scB).set_image (some mA) scA).rect_size = s.rect_size ∧
    (((s.mousePressEvent CropDisplay.MouseButton.left).set_image
        (some mB) scB).set_image (some mA) scA).rectangle = s.rectangle ∧
    (((s.mousePressEvent CropDisplay.MouseButton.left).set_image
        (some mB) scB).set_image (some mA) scA).is_selecting = false := by
  have h1 := press_left_confirm s mA hm har hsel
  have h2 := set_image_keeps (s.mousePressEvent CropDisplay.MouseButton.left)
    (some mB) scB
  have hmem : ((((s.mousePressEvent CropDisplay.MouseButton.left).set_image
      (some mB) scB)).last_rect_size mA.image_path).isSome := by
    rw [h2.1, h1.1]
    simp [dictInsert]
  have har2 : (((s.mousePressEvent CropDisplay.MouseButton.left).set_image
      (some mB) scB)).aspect_ratio.isSome := by
    rw [h2.2.2, h1.2.2]
    exact har
  have h3 := set_image_restore
    ((s.mousePressEvent CropDisplay.MouseButton.left).set_image (some mB) scB)
    mA scA hmem har2
  refine ⟨?_, ?_, h3.2.2⟩
  · rw [h3.1, h2.1, h1.1]
    simp [dictInsert]
  · rw [h3.2.1, h2.2.1, h1.2.1]
    simp [dictInsert]

theorem c8_witness :
    (((dispEx.mousePressEvent CropDisplay.MouseButton.left).set_image
        (some (ImageDataManager.init "b.png" 640 480)) (400, 300)).set_image
        (some mgrEx) (400, 300)).rect_size = dispEx.rect_size ∧
    (((dispEx.mousePressEvent CropDisplay.MouseButton.left).set_image
        (some (ImageDataManager.init "b.png" 640 480)) (400, 300)).set_image
        (some mgrEx) (400, 300)).rectangle = dispEx.rectangle ∧
    (((dispEx.mousePressEvent CropDisplay.MouseButton.left).set_image
        (some (ImageDataManager.init "b.png" 640 480)) (400, 300)).set_image
        (some mgrEx) (400, 300)).is_selecting = false :=
  c8_memory_restore dispEx mgrEx (ImageDataManager.init "b.png" 640 480)
    (400, 300) (400, 300) rfl rfl rfl (by decide)

theorem set_aspect_keeps (s : CropDisplay) (str : List Char) :
    ((s.set_aspect_ratio str).1).last_rect_size = s.last_rect_size ∧
    ((s.set_aspect_ratio str).1).last_rect_pos = s.last_rect_pos := by
  obtain ⟨W, H, im, os, ss, arf, rs, rect, sel, ls, lp⟩ := s
  rcases im with _ | m <;>
    (unfold CropDisplay.set_aspect_ratio; repeat' split) <;>
    simp [(sdr_keeps _).2.2.2.2.1, (sdr_keeps _).2.2.2.2.2]

theorem set_rect_size_keeps (s : CropDisplay) (n : ℤ) :
    (s.set_rect_size n).last_rect_size = s.last_rect_size ∧
    (s.set_rect_size n).last_rect_pos = s.last_rect_pos := by
  obtain ⟨W, H, im, os, ss, arf, rs, rect, sel, ls, lp⟩ := s
  unfold CropDisplay.set_rect_size
  dsimp only
  split_ifs <;>
    simp [(sdr_keeps _).2.2.2.2.1, (sdr_keeps _).2.2.2.2.2]

theorem move_keeps (s : CropDisplay) (px py : ℤ) :
    (s.mouseMoveEvent px py).last_rect_size = s.last_rect_size ∧
    (s.mouseMoveEvent px py).last_rect_pos = s.last_rect_pos := by
  obtain ⟨W, H, im, os, ss, arf, rs, rect, sel, ls, lp⟩ := s
  unfold CropDisplay.mouseMoveEvent
  repeat' split
  all_goals simp

theorem wheel_keeps (s : CropDisplay) (d : ℤ) :
    (s.wheelEvent d).last_rect_size = s.last_rect_size ∧
    (s.wheelEvent d).last_rect_pos = s.last_rect_pos := by
  obtain ⟨W, H, im, os, ss, arf, rs, rect, sel, ls, lp⟩ := s
  unfold CropDisplay.wheelEvent
  repeat' split
  all_goals simp

theorem applyDOp_keys_aligned {s : CropDisplay} (op : DOp) (k : String)
    (ih : (s.last_rect_size k).isSome ↔ (s.last_rect_pos k).isSome) :
    (((applyDOp s op).last_rect_size k).isSome ↔
      ((applyDOp s op).last_rect_pos k).isSome) := by
  cases op with
  | setImage mgr sc =>
    show (((s.set_image mgr sc).last_rect_size k).isSome ↔
      ((s.set_image mgr sc).last_rect_pos k).isSome)
    rw [(set_image_keeps s mgr sc).1, (set_image_keeps s mgr sc).2.1]
    exact ih
  | setAspect str =>
    show ((((s.set_aspect_ratio str).1).last_rect_size k).isSome ↔
      (((s.set_aspect_ratio str).1).last_rect_pos k).isSome)
    rw [(set_aspect_keeps s str).1, (set_aspect_keeps s str).2]
    exact ih
  | setRectSize n =>
    show (((s.set_rect_size n).last_rect_size k).isSome ↔
      ((s.set_rect_size n).last_rect_pos k).isSome)
    rw [(set_rect_size_keeps s n).1, (set_rect_size_keeps s n).2]
    exact ih
  | move px py =>
    show (((s.mouseMoveEvent px py).last_rect_size k).isSome ↔
      ((s.mouseMoveEvent px py).last_rect_pos k).isSome)
    rw [(move_keeps s px py).1, (move_keeps s px py).2]
    exact ih
  | wheel d =>
    show (((s.wheelEvent d).last_rect_size k).isSome ↔
      ((s.wheelEvent d).last_rect_pos k).isSome)
    rw [(wheel_keeps s d).1, (wheel_keeps s d).2]
    exact ih
  | resetOp => exact ih
  | resizeEv w h sc =>
    show (((s.resizeEvent w h sc).last_rect_size k).isSome ↔
      ((s.resizeEvent w h sc).last_rect_pos k).isSome)
    unfold CropDisplay.resizeEvent
    dsimp only
    split_ifs <;> exact ih
  | press b =>
    cases b with
    | left =>
      show (((s.mousePressEvent CropDisplay.MouseButton.left).last_rect_size
        k).isSome ↔
        ((s.mousePressEvent CropDisplay.MouseButton.left).last_rect_pos
          k).isSome)
      obtain ⟨W, H, im, os, ss, arf, rs, rect, sel, ls, lp⟩ := s
      simp only at ih
      have ihb : (ls k).isSome = (lp k).isSome := Bool.eq_iff_iff.mpr ih
      unfold CropDisplay.mousePressEvent
      rcases arf with _ | a
      · exact ih
      · rcases sel with _ | _
        · exact ih
        · rcases im with _ | m
          · exact ih
          · by_cases hk : k = m.image_path <;> simp [dictInsert, hk, ihb]
    | right =>
      show (((s.mousePressEvent CropDisplay.MouseButton.right).last_rect_size
        k).isSome ↔
        ((s.mousePressEvent CropDisplay.MouseButton.right).last_rect_pos
          k).isSome)
      obtain ⟨W, H, im, os, ss, arf, rs, rect, sel, ls, lp⟩ := s
      simp only at ih
      have ihb : (ls k).isSome = (lp k).isSome := Bool.eq_iff_iff.mpr ih
      unfold CropDisplay.mousePressEvent
      rcases arf with _ | a
      · exact ih
      · rcases im with _ | m
        · exact ih
        · rw [(sdr_keeps _).2.2.2.2.1, (sdr_keeps _).2.2.2.2.2]
          by_cases hk : k = m.image_path
          · subst hk
            split_ifs <;> simp_all [dictDelete]
          · split_ifs <;> simp [dictDelete, hk, ihb]
  | release b =>
    cases b with
    | left =>
      show (((s.mouseReleaseEvent CropDisplay.MouseButton.left).last_rect_size
        k).isSome ↔
        ((s.mouseReleaseEvent CropDisplay.MouseButton.left).last_rect_pos
          k).isSome)
      obtain ⟨W, H, im, os, ss, arf, rs, rect, sel, ls, lp⟩ := s
      simp only at ih
      have ihb : (ls k).isSome = (lp k).isSome := Bool.eq_iff_iff.mpr ih
      unfold CropDisplay.mouseReleaseEvent
      rcases sel with _ | _
      · simpa using ih
      · rcases im with _ | m
        · simpa using ih
        · by_cases hk : k = m.image_path <;> simp [dictInsert, hk, ihb]
    | right =>
      show (((s.mouseReleaseEvent
          CropDisplay.MouseButton.right).last_rect_size k).isSome ↔
        ((s.mouseReleaseEvent CropDisplay.MouseButton.right).last_rect_pos
          k).isSome)
      have hng : ¬(CropDisplay.MouseButton.right = CropDisplay.MouseButton.left
          ∧ s.is_selecting = true) := by
        rintro ⟨h1, -⟩
        simp at h1
      unfold CropDisplay.mouseReleaseEvent
      rw [if_neg hng]
      exact ih

/-- C10: in every reachable display state the two memory dicts
`last_rect_size` and `last_rect_pos` hold exactly the same keys, so the
restore path of `set_image`, which tests membership only in
`last_rect_size`, never reads a missing key from `last_rect_pos`. -/
theorem c10_memory_keys_align {s : CropDisplay} (h : DisplayReachable s)
    (k : String) :
    ((s.last_rect_size k).isSome ↔ (s.last_rect_pos k).isSome) := by
  induction h with
  | init W H => simp [CropDisplay.mk0]
  | step op hr ih => exact applyDOp_keys_aligned op k ih

theorem c10_witness :
    ((applyDOp (applyDOp (CropDisplay.mk0 300 300)
        (DOp.setImage (some (ImageDataManager.init "a.png" 800 600))
          (300, 225))) (DOp.release CropDisplay.MouseButton.left)).last_rect_size
      "a.png").isSome ↔
    ((applyDOp (applyDOp (CropDisplay.mk0 300 300)
        (DOp.setImage (some (ImageDataManager.init "a.png" 800 600))
          (300, 225))) (DOp.release CropDisplay.MouseButton.left)).last_rect_pos
      "a.png").isSome :=
  c10_memory_keys_align
    (DisplayReachable.step (DOp.release CropDisplay.MouseButton.left)
      (DisplayReachable.step
        (DOp.setImage (some (ImageDataManager.init "a.png" 800 600)) (300, 225))
        (DisplayReachable.init 300 300)))
    "a.png"
